import Mathlib

/-!
Verification of the MediNexus Pro+ Digital Twin event timeline and
aggregation model.

The repository ships the React frontend (Dashboard, DocumentsPage,
SymptomChecker, LabResultsPage, the API client) under `src/`; the FastAPI
backend (Twin Core Event Store, Feature Writers, Timeline Reader,
Aggregator, Lab Flow status computation) is referenced by the frontend and
by `requirements.md` but its source is not part of the repository
snapshot.  Definitions for the backend components are therefore modelled
from the specification (each is marked `Modelled from the spec:`), while
the frontend helpers (`addSymptom`, `getEventIcon`, `getEventColor`,
`getDocTypeInfo`) are embedded directly from the JavaScript source.
-/

namespace MediNexus

/-! ### Lab status rule (§4.2 of the spec)

Modelled from the spec: the backend Lab Flow API that computes a lab
result's `status` from its numeric `value` and optional reference range is
absent from `src/`; only the frontend rendering of the four status values
(`getStatusIcon` / `getStatusColor` / `getStatusLabel` in
`LabResultsPage`) is present. -/

/-- The four clinical statuses a lab value can be classified into. -/
inductive LabStatus
  | normal
  | low
  | high
  | critical
deriving DecidableEq, Repr

/-- Modelled from the spec: the configurable wide-deviation threshold —
a value more than 50% beyond either bound of the reference range is
`critical` (§4.2, "e.g., >50% beyond either bound"). -/
def criticalMultiplier : ℚ := 1 / 2

/-- Modelled from the spec: classify a numeric lab `value` against an
optional parsed reference range `(low, high)` (§4.2 Lab status rule):
`critical` beyond the wide-deviation threshold, else `high` above the
range, else `low` below it, else `normal`; `normal` when no range is
supplied. -/
def computeLabStatus (value : ℚ) (range : Option (ℚ × ℚ)) : LabStatus :=
  match range with
  | none => .normal
  | some (low, high) =>
    if value > high * (1 + criticalMultiplier) then .critical
    else if value < low * (1 - criticalMultiplier) then .critical
    else if value > high then .high
    else if value < low then .low
    else .normal

/-! ### Event Store (§4.1 of the spec)

Modelled from the spec: the Twin Core backend (`POST /v1/twin/events`,
`GET /v1/twin/timeline`) is absent from `src/`; the frontend calls it
through `twinApi` in the services/api module.  The closed set of event
types is also reflected in the frontend lookup tables of `Dashboard`
(`getEventIcon` / `getEventColor`). -/

/-- The closed set of TwinEvent types (§3 of the spec). -/
def eventTypes : List String :=
  ["symptom", "lab_result", "document", "vital", "consultation", "treatment"]

/-- An event as submitted to `append`: `user_id` and `timestamp` may be
missing, in which case validation fails. -/
structure RawEvent where
  user_id : Option String
  event_type : String
  timestamp : Option Int
  data_title : String
  data_ref_id : Nat
deriving DecidableEq, Repr

/-- A validated, stored timeline event (§3: TwinEvent). The
`data_payload` is modelled by its two spec-mandated components: a
human-readable title and the identifier of the feature record the event
describes. -/
structure TwinEvent where
  event_id : Nat
  user_id : String
  event_type : String
  timestamp : Int
  data_title : String
  data_ref_id : Nat
deriving DecidableEq, Repr

/-- The append-only Event Store: the list of stored events plus the next
fresh event identifier. -/
structure EventStore where
  events : List TwinEvent
  nextId : Nat
deriving DecidableEq, Repr

def EventStore.empty : EventStore := ⟨[], 0⟩

/-- Modelled from the spec (§4.1): `append` inserts one event and returns
its `EventId`; it fails with a `ValidationError` when `event_type` is not
in the closed set or `user_id` / `timestamp` is missing. -/
def EventStore.append (s : EventStore) (e : RawEvent) :
    Except String (EventStore × Nat) :=
  match e.user_id, e.timestamp with
  | some uid, some ts =>
    if e.event_type ∈ eventTypes then
      .ok (⟨⟨s.nextId, uid, e.event_type, ts, e.data_title, e.data_ref_id⟩ :: s.events,
            s.nextId + 1⟩, s.nextId)
    else .error "ValidationError: unknown event_type"
  | none, _ => .error "ValidationError: missing user_id"
  | _, none => .error "ValidationError: missing timestamp"

/-- Append variant that discards a validation failure; used only to
build concrete scenario stores. -/
def EventStore.appendD (s : EventStore) (e : RawEvent) : EventStore :=
  match s.append e with
  | .ok (s1, _) => s1
  | .error _ => s

/-- Modelled from the spec (§4.1): the filter applied by `query` — owner
match, optional event-type match, optional time window. -/
def matchesQuery (uid : String) (etype : Option String) (since untl : Option Int)
    (e : TwinEvent) : Bool :=
  e.user_id == uid
    && (match etype with | none => true | some t => e.event_type == t)
    && (match since with | none => true | some t => decide (t ≤ e.timestamp))
    && (match untl with | none => true | some t => decide (e.timestamp ≤ t))

/-- The ordering relation of the timeline: most recent first
(non-increasing timestamps). -/
def tsGe (a b : TwinEvent) : Prop := b.timestamp ≤ a.timestamp

instance : DecidableRel tsGe := fun a b =>
  inferInstanceAs (Decidable (b.timestamp ≤ a.timestamp))

instance : IsTotal TwinEvent tsGe :=
  ⟨fun a b => le_total b.timestamp a.timestamp⟩

instance : IsTrans TwinEvent tsGe :=
  ⟨fun _ _ _ hab hbc => le_trans hbc hab⟩

/-- Modelled from the spec (§4.1): `query` returns the events of the
given owner, optionally filtered by type and time window, ordered by
`timestamp` descending, after skipping `offset` events and bounded by
`limit`; it returns an empty sequence (not an error) when nothing
matches. -/
def EventStore.query (s : EventStore) (uid : String) (etype : Option String)
    (since untl : Option Int) (limit offset : Nat) : List TwinEvent :=
  ((List.insertionSort tsGe (s.events.filter (matchesQuery uid etype since untl))).drop
      offset).take limit

/-- Modelled from the spec (§4.3): the Timeline Reader exposes `query`
with a `ValidationError` on an unknown `event_type` filter and a maximum
enforced limit of 200. -/
def getTimeline (s : EventStore) (uid : String) (etype : Option String)
    (since untl : Option Int) (limit offset : Nat) :
    Except String (List TwinEvent) :=
  match etype with
  | some t =>
    if t ∈ eventTypes then
      .ok (s.query uid (some t) since untl (min limit 200) offset)
    else .error "ValidationError: unknown event_type filter"
  | none => .ok (s.query uid none since untl (min limit 200) offset)

/-! ### Feature Writers (§4.2 of the spec)

Modelled from the spec: the backend feature APIs (labs, documents,
care-plans, appointments, vitals, symptom-checks) are absent from `src/`;
the frontend invokes them through `labsApi.create`, `documentsApi.create`,
etc.  The spec gives one uniform contract per writer: persist the feature
record, then append exactly one derived TwinEvent; if persisting the
record fails the append must not happen, and a failure of the append step
is reported but the committed record is not rolled back. -/

/-- A feature record as persisted by a writer, reduced to the fields the
writer contract mentions: its own identifier, its owner and a
human-readable title. -/
structure FeatureRecord where
  id : Nat
  user_id : String
  title : String
deriving DecidableEq, Repr

/-- The state a Feature Writer acts on: its own collection plus the
shared Event Store. -/
structure FeatureState where
  records : List FeatureRecord
  nextRecordId : Nat
  store : EventStore
deriving DecidableEq, Repr

/-- The outcome reported to the caller of a feature-create call. -/
inductive WriteResult
  | ok (recordId : Nat) (eventId : Nat)
  | recordFailed
  | appendFailed (recordId : Nat)
deriving DecidableEq, Repr

/-- Modelled from the spec (§4.2, §5): a feature-create call. The two
booleans `recordOk` and `appendOk` model whether the underlying store
accepts each of the two writes (a `PersistenceError` when it does not).
The record insert runs first; only after it is confirmed successful does
the event append run; an append failure is reported but the record is not
rolled back. -/
def featureCreate (etype uid title : String) (ts : Int)
    (recordOk appendOk : Bool) (st : FeatureState) :
    FeatureState × WriteResult :=
  if !recordOk then (st, .recordFailed)
  else
    let rid := st.nextRecordId
    let st1 : FeatureState :=
      ⟨⟨rid, uid, title⟩ :: st.records, rid + 1, st.store⟩
    if !appendOk then (st1, .appendFailed rid)
    else
      match st1.store.append ⟨some uid, etype, some ts, title, rid⟩ with
      | .error _ => (st1, .appendFailed rid)
      | .ok (store1, eid) => (⟨st1.records, st1.nextRecordId, store1⟩, .ok rid eid)

/-! ### Aggregator (§4.4 of the spec)

Modelled from the spec: the backend `GET /v1/twin/aggregate` handler is
absent from `src/`; `Dashboard` merely renders the four counters it
returns. -/

structure CarePlan where
  user_id : String
  status : String
deriving DecidableEq, Repr

structure Appointment where
  user_id : String
  appointment_date : Int
  status : String
deriving DecidableEq, Repr

/-- A persisted lab result, reduced to the fields the Aggregator and the
lab scenario need. -/
structure LabRecord where
  user_id : String
  test_name : String
  status : LabStatus
  test_date : Int
deriving DecidableEq, Repr

structure DocumentRecord where
  id : Nat
  user_id : String
  title : String
  document_type : String
deriving DecidableEq, Repr

/-- The four dashboard counters (§3: AggregateSnapshot). -/
structure AggregateSnapshot where
  active_care_plans : Nat
  upcoming_appointments : Nat
  recent_lab_results : Nat
  total_documents : Nat
deriving DecidableEq, Repr

/-- Thirty days in seconds, the trailing window for recent lab results. -/
def thirtyDays : Int := 30 * 86400

/-- Modelled from the spec (§4.4): the Aggregator computes the four
counters as independent per-collection filtered counts, on read, with no
persisted cache. -/
def computeAggregate (now : Int) (uid : String) (plans : List CarePlan)
    (appts : List Appointment) (labs : List LabRecord)
    (docs : List DocumentRecord) : AggregateSnapshot :=
  { active_care_plans :=
      (plans.filter (fun p => p.user_id == uid && p.status == "active")).length
    upcoming_appointments :=
      (appts.filter (fun a => a.user_id == uid && decide (now < a.appointment_date)
        && (a.status == "scheduled" || a.status == "confirmed"))).length
    recent_lab_results :=
      (labs.filter (fun l => l.user_id == uid
        && decide (now - thirtyDays ≤ l.test_date) && decide (l.test_date ≤ now))).length
    total_documents :=
      (docs.filter (fun d => d.user_id == uid)).length }

/-! ### Document delete (§3, §8 of the spec)

Modelled from the spec: the backend `DELETE /v1/documents/:id` handler is
absent from `src/`; `DocumentsPage.handleDelete` calls it and refetches
the listing.  Deleting a document removes it from document listings but
does not cascade to the Event Store. -/

/-- Modelled from the spec: delete a document from the user's document
collection; the Event Store is not touched. -/
def deleteDocument (docs : List DocumentRecord) (store : EventStore)
    (docId : Nat) : List DocumentRecord × EventStore :=
  (docs.filter (fun d => d.id != docId), store)

/-! ### Frontend helpers, embedded from the JavaScript source -/

/-- The lucide-react icon components used by the lookup tables of
`Dashboard` and `DocumentsPage`. -/
inductive Icon
  | brain
  | trendingUp
  | fileText
  | heart
  | calendar
  | activity
  | image
  | file
deriving DecidableEq, Repr

/-- From `SymptomChecker.addSymptom`: add a symptom only when it is
non-empty (JavaScript truthiness of the string) and not already in the
list. -/
def addSymptom (symptoms : List String) (symptom : String) : List String :=
  if symptom != "" && !(symptoms.contains symptom) then symptoms ++ [symptom]
  else symptoms

/-- The property names every plain JavaScript object literal inherits
from `Object.prototype`.  A property read `obj[key]` for one of these
keys yields the inherited member (a function, or `Object.prototype`
itself for `__proto__`), which is truthy, so a `lookup || fallback`
expression returns the inherited member instead of the fallback. -/
def objectPrototypeKeys : List String :=
  ["constructor", "hasOwnProperty", "isPrototypeOf", "propertyIsEnumerable",
   "toLocaleString", "toString", "valueOf", "__defineGetter__",
   "__defineSetter__", "__lookupGetter__", "__lookupSetter__", "__proto__"]

/-- The result of a JavaScript `objectLiteral[key] || fallback`
expression: either a defined value of the table's value type (an own
entry or the fallback — never `undefined`, thanks to the `||`), or a
member inherited from `Object.prototype` under the given name. -/
inductive JsLookup (α : Type)
  | value (a : α)
  | protoProperty (name : String)
deriving DecidableEq, Repr

/-- From `Dashboard.getEventIcon` (`icons[type] || Activity`): property
lookup finds the six own keys first, then walks the prototype chain —
an `Object.prototype` name yields the inherited truthy member, so the
`Activity` fallback fires only for keys that are neither. -/
def getEventIcon (t : String) : JsLookup Icon :=
  if t == "symptom" then .value .brain
  else if t == "lab_result" then .value .trendingUp
  else if t == "document" then .value .fileText
  else if t == "vital" then .value .heart
  else if t == "consultation" then .value .calendar
  else if t == "treatment" then .value .activity
  else if t ∈ objectPrototypeKeys then .protoProperty t
  else .value .activity

/-- From `Dashboard.getEventColor` (`colors[type] || 'bg-stone-100
text-stone-600'`): same own-keys-then-prototype-chain lookup as
`getEventIcon`, with the stone colour classes as fallback. -/
def getEventColor (t : String) : JsLookup String :=
  if t == "symptom" then .value "bg-purple-100 text-purple-600"
  else if t == "lab_result" then .value "bg-blue-100 text-blue-600"
  else if t == "document" then .value "bg-amber-100 text-amber-600"
  else if t == "vital" then .value "bg-rose-100 text-rose-600"
  else if t == "consultation" then .value "bg-green-100 text-green-600"
  else if t == "treatment" then .value "bg-teal-100 text-teal-600"
  else if t ∈ objectPrototypeKeys then .protoProperty t
  else .value "bg-stone-100 text-stone-600"

/-- One entry of `DOCUMENT_TYPES` in `DocumentsPage`. -/
structure DocTypeInfo where
  value : String
  label : String
  icon : Icon
  color : String
deriving DecidableEq, Repr

/-- From `DocumentsPage.DOCUMENT_TYPES`: the six document types, in
source order; index 5 is the catch-all `other` entry. -/
def DOCUMENT_TYPES : List DocTypeInfo :=
  [⟨"lab_report", "Результаты анализов", .activity, "blue"⟩,
   ⟨"imaging", "Снимки (КТ, МРТ, УЗИ)", .image, "purple"⟩,
   ⟨"prescription", "Рецепт", .fileText, "green"⟩,
   ⟨"discharge_summary", "Выписка", .file, "amber"⟩,
   ⟨"consultation", "Заключение врача", .brain, "teal"⟩,
   ⟨"other", "Другое", .file, "stone"⟩]

/-- From `DocumentsPage.getDocTypeInfo`:
`DOCUMENT_TYPES.find(t => t.value === type) || DOCUMENT_TYPES[5]`. -/
def getDocTypeInfo (t : String) : DocTypeInfo :=
  (DOCUMENT_TYPES.find? (fun d => d.value == t)).getD
    ⟨"other", "Другое", .file, "stone"⟩

/-! ### Concrete scenario data, used by the scenario conjuncts and the
witnesses -/

/-- A raw lab-result event for user `u1` at the given timestamp. -/
def labRaw (ts : Int) : RawEvent := ⟨some "u1", "lab_result", some ts, "Lab", 0⟩

/-- The store obtained by appending three lab-result events (timestamps
100, 200, 300) to the empty store. -/
def threeLabStore : EventStore :=
  ((EventStore.empty.appendD (labRaw 100)).appendD (labRaw 200)).appendD (labRaw 300)

/-- Reference instant for the aggregate scenario. -/
def aggNow : Int := 10000000

/-- 2 active and 1 completed care plan for `u1`. -/
def aggPlans : List CarePlan :=
  [⟨"u1", "active"⟩, ⟨"u1", "active"⟩, ⟨"u1", "completed"⟩]

/-- 1 future confirmed appointment for `u1`. -/
def aggAppts : List Appointment := [⟨"u1", aggNow + 86400, "confirmed"⟩]

/-- 3 lab results for `u1` inside the trailing 30 days. -/
def aggLabs : List LabRecord :=
  [⟨"u1", "Глюкоза", .high, aggNow - 1000⟩,
   ⟨"u1", "Гемоглобин", .normal, aggNow - 2000⟩,
   ⟨"u1", "АЛТ", .normal, aggNow - 3000⟩]

/-- 5 documents for `u1`. -/
def aggDocs : List DocumentRecord :=
  [⟨0, "u1", "d0", "other"⟩, ⟨1, "u1", "d1", "other"⟩, ⟨2, "u1", "d2", "other"⟩,
   ⟨3, "u1", "d3", "other"⟩, ⟨4, "u1", "d4", "other"⟩]

/-! ## Theorems -/

/-- C1: for a lab result with numeric value `v` and reference range
`(low, high)`, the computed status is `critical` when the value deviates
more than the critical multiplier (50%) beyond either bound — taking
precedence over `high` / `low` — else `high` when `v > high`, `low` when
`v < low`, `normal` when `low ≤ v ≤ high`; with no reference range the
status is `normal`; in particular value 7.5 against range 3.9–6.1 is
`high`. -/
theorem labStatus_correct (v low high : ℚ) (hlow : 0 ≤ low) (hlh : low ≤ high) :
    computeLabStatus v none = .normal
    ∧ (v > high * (1 + criticalMultiplier) ∨ v < low * (1 - criticalMultiplier) →
        computeLabStatus v (some (low, high)) = .critical)
    ∧ (v > high → ¬(v > high * (1 + criticalMultiplier)) →
        computeLabStatus v (some (low, high)) = .high)
    ∧ (v < low → ¬(v < low * (1 - criticalMultiplier)) →
        computeLabStatus v (some (low, high)) = .low)
    ∧ (low ≤ v → v ≤ high → computeLabStatus v (some (low, high)) = .normal)
    ∧ computeLabStatus (15/2) (some (39/10, 61/10)) = .high := by
  have hhigh : (0 : ℚ) ≤ high := le_trans hlow hlh
  refine ⟨rfl, ?_, ?_, ?_, ?_, ?_⟩
  · intro h
    simp only [criticalMultiplier] at h
    simp only [computeLabStatus, criticalMultiplier]
    rcases h with h | h
    · rw [if_pos h]
    · split_ifs with h1 <;> rfl
  · intro hv hnc
    simp only [computeLabStatus, criticalMultiplier] at *
    split_ifs <;> first | rfl | (exfalso; linarith)
  · intro hv hnc
    simp only [computeLabStatus, criticalMultiplier] at *
    split_ifs <;> first | rfl | (exfalso; linarith)
  · intro h1 h2
    simp only [computeLabStatus, criticalMultiplier] at *
    split_ifs <;> first | rfl | (exfalso; linarith)
  · norm_num [computeLabStatus, criticalMultiplier]

/-- Witness for C1: the Glucose scenario, 7.5 against "3.9-6.1". -/
theorem labStatus_correct_witness :
    computeLabStatus (15/2) (some (39/10, 61/10)) = .high :=
  (labStatus_correct (15/2) (39/10) (61/10) (by norm_num) (by norm_num)).2.2.2.2.2

/-- C6: `append` fails with a `ValidationError` — inserting nothing, the
error carries no new store — exactly when `event_type` is outside the
closed set or `user_id` / `timestamp` is missing; on any event meeting
the conditions it inserts that one event and returns its `EventId`. -/
theorem append_validates (s : EventStore) (e : RawEvent) :
    ((∃ msg, s.append e = .error msg) ↔
      e.event_type ∉ eventTypes ∨ e.user_id = none ∨ e.timestamp = none)
    ∧ (∀ uid ts, e.user_id = some uid → e.timestamp = some ts →
        e.event_type ∈ eventTypes →
        s.append e =
          .ok (⟨⟨s.nextId, uid, e.event_type, ts, e.data_title, e.data_ref_id⟩ :: s.events,
                s.nextId + 1⟩, s.nextId)) := by
  obtain ⟨u, ty, ts, ti, ri⟩ := e
  constructor
  · rcases u with _ | u <;> rcases ts with _ | ts <;>
      by_cases hty : ty ∈ eventTypes <;> simp [EventStore.append, hty]
  · rintro uid ts1 huid hts hty
    cases huid
    cases hts
    simp [EventStore.append, hty]

/-- Witness for C6: appending a concrete valid vital event to the empty
store succeeds and yields event id 0. -/
theorem append_validates_witness :
    EventStore.empty.append ⟨some "u9", "vital", some 42, "Пульс", 7⟩ =
      .ok (⟨[⟨0, "u9", "vital", 42, "Пульс", 7⟩], 1⟩, 0) :=
  (append_validates EventStore.empty ⟨some "u9", "vital", some 42, "Пульс", 7⟩).2
    "u9" 42 rfl rfl (by decide)

/-- Helper: a query whose filter rejects every stored event returns the
empty list. -/
theorem query_eq_nil_of_no_match (s : EventStore) (uid : String)
    (etype : Option String) (since untl : Option Int) (limit offset : Nat)
    (h : ∀ e ∈ s.events, matchesQuery uid etype since untl e = false) :
    s.query uid etype since untl limit offset = [] := by
  have hf : s.events.filter (matchesQuery uid etype since untl) = [] := by
    rw [List.filter_eq_nil_iff]
    intro a ha
    simp [h a ha]
  simp [EventStore.query, hf]

/-- C2: every Event Store query result is ordered by timestamp descending
(non-increasing across the sequence), contains at most `limit` events,
and is the empty sequence — not an error — when no event matches; after
inserting three lab-result events, the query behind
`GET /timeline?event_type=lab_result&limit=1` returns exactly the one
most recent event. -/
theorem query_ordered_bounded (s : EventStore) (uid : String)
    (etype : Option String) (since untl : Option Int) (limit offset : Nat) :
    List.Sorted tsGe (s.query uid etype since untl limit offset)
    ∧ (s.query uid etype since untl limit offset).length ≤ limit
    ∧ ((∀ e ∈ s.events, matchesQuery uid etype since untl e = false) →
        s.query uid etype since untl limit offset = [])
    ∧ threeLabStore.query "u1" (some "lab_result") none none 1 0 =
        [⟨2, "u1", "lab_result", 300, "Lab", 0⟩] := by
  refine ⟨?_, ?_, query_eq_nil_of_no_match s uid etype since untl limit offset, by decide⟩
  · have hs : List.Sorted tsGe
        (List.insertionSort tsGe (s.events.filter (matchesQuery uid etype since untl))) :=
      List.sorted_insertionSort tsGe _
    exact List.Pairwise.sublist
      ((List.take_sublist _ _).trans (List.drop_sublist _ _)) hs
  · simp only [EventStore.query]
    rw [List.length_take]
    exact min_le_left _ _

/-- Witness for C2: a query on the empty store matches nothing and
returns the empty sequence. -/
theorem query_ordered_bounded_witness :
    EventStore.empty.query "u1" none none none 5 0 = [] :=
  (query_ordered_bounded EventStore.empty "u1" none none none 5 0).2.2.1
    (by intro e he; simp [EventStore.empty] at he)

/-- Helper: with an inverted time window (`since > until`) the query
filter rejects every event. -/
theorem window_no_match (uid : String) (etype : Option String) (a b : Int)
    (hab : b < a) (e : TwinEvent) :
    matchesQuery uid etype (some a) (some b) e = false := by
  cases etype <;> simp [matchesQuery] <;> intros <;> omega

/-- C7: a `GET /timeline` request whose `event_type` filter value is
outside the closed set yields a `ValidationError`, whereas a time window
with `since > until` yields an empty result and is not an error (both
with and without a well-formed type filter). -/
theorem timeline_edge_cases (s : EventStore) (uid : String) (limit offset : Nat) :
    (∀ t, ∀ since untl : Option Int, t ∉ eventTypes →
        getTimeline s uid (some t) since untl limit offset =
          .error "ValidationError: unknown event_type filter")
    ∧ (∀ a b : Int, b < a →
        getTimeline s uid none (some a) (some b) limit offset = .ok []
        ∧ ∀ t ∈ eventTypes,
            getTimeline s uid (some t) (some a) (some b) limit offset = .ok []) := by
  constructor
  · intro t since untl ht
    simp [getTimeline, ht]
  · intro a b hab
    constructor
    · simp only [getTimeline]
      rw [query_eq_nil_of_no_match]
      intro e _
      exact window_no_match uid none a b hab e
    · intro t ht
      simp only [getTimeline, if_pos ht]
      rw [query_eq_nil_of_no_match]
      intro e _
      exact window_no_match uid (some t) a b hab e

/-- Witness for C7: an unknown filter value errors, and an inverted
window on the three-event store is empty but not an error. -/
theorem timeline_edge_cases_witness :
    getTimeline threeLabStore "u1" (some "bogus") none none 20 0 =
        .error "ValidationError: unknown event_type filter"
    ∧ getTimeline threeLabStore "u1" none (some 300) (some 100) 20 0 = .ok [] :=
  ⟨(timeline_edge_cases threeLabStore "u1" 20 0).1 "bogus" none none (by decide),
   ((timeline_edge_cases threeLabStore "u1" 20 0).2 300 100 (by decide)).1⟩

/-- C3: a valid feature-create call with both writes accepted produces
exactly one new feature record and exactly one new TwinEvent, the
event's `event_type` matching the feature and its payload carrying the
new record's own identifier and human-readable title. -/
theorem featureCreate_one_record_one_event (etype uid title : String) (ts : Int)
    (st : FeatureState) (hty : etype ∈ eventTypes) :
    featureCreate etype uid title ts true true st =
      (⟨⟨st.nextRecordId, uid, title⟩ :: st.records, st.nextRecordId + 1,
        ⟨⟨st.store.nextId, uid, etype, ts, title, st.nextRecordId⟩ :: st.store.events,
         st.store.nextId + 1⟩⟩,
       .ok st.nextRecordId st.store.nextId) := by
  simp [featureCreate, EventStore.append, hty]

/-- Witness for C3: creating a document feature from the empty state
yields the one record and its one matching event. -/
theorem featureCreate_one_record_one_event_witness :
    featureCreate "document" "u1" "Выписка" 500 true true ⟨[], 0, EventStore.empty⟩ =
      (⟨[⟨0, "u1", "Выписка"⟩], 1, ⟨[⟨0, "u1", "document", 500, "Выписка", 0⟩], 1⟩⟩,
       .ok 0 0) :=
  featureCreate_one_record_one_event "document" "u1" "Выписка" 500
    ⟨[], 0, EventStore.empty⟩ (by decide)

/-- C5: if persisting the feature record fails the event append does not
occur — the Event Store (and the whole state) is left unchanged and the
failure is reported; the append runs only after the record insert
succeeded, and an append failure is reported to the caller while the
already-committed record is kept (not rolled back). -/
theorem featureCreate_failure_ordering (etype uid title : String) (ts : Int)
    (appendOk : Bool) (st : FeatureState) :
    featureCreate etype uid title ts false appendOk st = (st, .recordFailed)
    ∧ (featureCreate etype uid title ts true false st).1.store = st.store
    ∧ (featureCreate etype uid title ts true false st).1.records =
        ⟨st.nextRecordId, uid, title⟩ :: st.records
    ∧ (featureCreate etype uid title ts true false st).2 =
        .appendFailed st.nextRecordId := by
  refine ⟨?_, ?_, ?_, ?_⟩ <;> simp [featureCreate]

/-- C4: `GET /aggregate` returns exactly the four counters, each an
independent per-collection filtered count — active care plans, upcoming
(future, scheduled-or-confirmed) appointments, labs inside the trailing
30 days, total documents; the 2-active/1-completed-plan, 1-future-
confirmed-appointment, 3-recent-lab, 5-document user gets counters
2, 1, 3, 5. -/
theorem aggregate_four_counts (now : Int) (uid : String) (plans : List CarePlan)
    (appts : List Appointment) (labs : List LabRecord)
    (docs : List DocumentRecord) :
    (computeAggregate now uid plans appts labs docs).active_care_plans =
        plans.countP (fun p => p.user_id == uid && p.status == "active")
    ∧ (computeAggregate now uid plans appts labs docs).upcoming_appointments =
        appts.countP (fun a => a.user_id == uid && decide (now < a.appointment_date)
          && (a.status == "scheduled" || a.status == "confirmed"))
    ∧ (computeAggregate now uid plans appts labs docs).recent_lab_results =
        labs.countP (fun l => l.user_id == uid
          && decide (now - thirtyDays ≤ l.test_date) && decide (l.test_date ≤ now))
    ∧ (computeAggregate now uid plans appts labs docs).total_documents =
        docs.countP (fun d => d.user_id == uid)
    ∧ computeAggregate aggNow "u1" aggPlans aggAppts aggLabs aggDocs = ⟨2, 1, 3, 5⟩ := by
  refine ⟨?_, ?_, ?_, ?_, by decide⟩ <;>
    simp [computeAggregate, List.countP_eq_length_filter]

/-- C8: deleting a document removes it from subsequent document listings
but leaves the Event Store unchanged, so every TwinEvent — in particular
the one appended when the document was created — stays visible through
`GET /timeline`. -/
theorem deleteDocument_no_cascade (docs : List DocumentRecord)
    (store : EventStore) (docId : Nat) :
    (∀ d ∈ (deleteDocument docs store docId).1, d.id ≠ docId)
    ∧ (∀ d ∈ docs, d.id ≠ docId → d ∈ (deleteDocument docs store docId).1)
    ∧ (deleteDocument docs store docId).2 = store
    ∧ (∀ uid etype since untl limit offset,
        getTimeline (deleteDocument docs store docId).2 uid etype since untl
            limit offset =
          getTimeline store uid etype since untl limit offset) := by
  refine ⟨?_, ?_, rfl, fun _ _ _ _ _ _ => rfl⟩
  · intro d hd
    simp [deleteDocument, List.mem_filter] at hd
    exact hd.2
  · intro d hd hne
    simp [deleteDocument, List.mem_filter]
    exact ⟨hd, hne⟩

/-- Witness for C8: deleting document 2 keeps document 1 in the listing
and leaves the three-event store untouched. -/
theorem deleteDocument_no_cascade_witness :
    (⟨1, "u1", "A", "other"⟩ : DocumentRecord) ∈
        (deleteDocument [⟨1, "u1", "A", "other"⟩, ⟨2, "u1", "B", "other"⟩]
          threeLabStore 2).1
    ∧ (deleteDocument [⟨1, "u1", "A", "other"⟩, ⟨2, "u1", "B", "other"⟩]
          threeLabStore 2).2 = threeLabStore :=
  ⟨(deleteDocument_no_cascade [⟨1, "u1", "A", "other"⟩, ⟨2, "u1", "B", "other"⟩]
      threeLabStore 2).2.1 ⟨1, "u1", "A", "other"⟩ (by decide) (by decide),
   (deleteDocument_no_cascade [⟨1, "u1", "A", "other"⟩, ⟨2, "u1", "B", "other"⟩]
      threeLabStore 2).2.2.1⟩

/-- C9: `addSymptom` is a no-op on the empty string and on a symptom
already selected, otherwise it appends the symptom exactly once at the
end; consequently a duplicate-free symptom list stays duplicate-free. -/
theorem addSymptom_spec (s : List String) (x : String) :
    (x = "" → addSymptom s x = s)
    ∧ (x ∈ s → addSymptom s x = s)
    ∧ (x ≠ "" → x ∉ s → addSymptom s x = s ++ [x])
    ∧ (s.Nodup → (addSymptom s x).Nodup) := by
  refine ⟨?_, ?_, ?_, ?_⟩
  · intro hx
    simp [addSymptom, hx]
  · intro hx
    simp [addSymptom, hx]
  · intro hx hmem
    simp [addSymptom, hx, hmem]
  · intro hnd
    by_cases hx : x = ""
    · simp [addSymptom, hx, hnd]
    · by_cases hm : x ∈ s
      · simp [addSymptom, hm, hnd]
      · simp [addSymptom, hx, hm, List.nodup_append, hnd]

/-- Witness for C9: adding a fresh non-empty symptom appends it at the
end. -/
theorem addSymptom_spec_witness :
    addSymptom ["Кашель"] "Температура" = ["Кашель", "Температура"] :=
  (addSymptom_spec ["Кашель"] "Температура").2.2.1 (by decide) (by decide)

/-- Counterexample for C10 as claimed: "toString" is outside the six
known event types, yet `icons["toString"] || Activity` yields the
inherited `Object.prototype.toString` (truthy), not the `Activity`
icon, and likewise `getEventColor` does not produce the stone classes
there. -/
theorem uiLookups_claimed_counterexample :
    "toString" ∉ eventTypes
    ∧ getEventIcon "toString" ≠ JsLookup.value Icon.activity
    ∧ getEventColor "toString" ≠ JsLookup.value "bg-stone-100 text-stone-600"
    ∧ getEventIcon "toString" = JsLookup.protoProperty "toString" := by
  decide

/-- C10 (amended): for any `event_type` outside the six known types
that is not a property name inherited from `Object.prototype`,
`getEventIcon` returns the `Activity` icon and `getEventColor` the
stone colour classes (a prototype-inherited name yields the inherited
member instead of the fallback); for any `document_type` outside the
known document types `getDocTypeInfo` returns the catch-all entry,
which is `DOCUMENT_TYPES[5]`; none of the lookups ever produces
undefined. -/
theorem uiLookups_amended (t : String) :
    (t ∉ eventTypes → t ∉ objectPrototypeKeys →
      getEventIcon t = .value .activity
        ∧ getEventColor t = .value "bg-stone-100 text-stone-600")
    ∧ (t ∉ eventTypes → t ∈ objectPrototypeKeys →
      getEventIcon t = .protoProperty t ∧ getEventColor t = .protoProperty t)
    ∧ ((∀ d ∈ DOCUMENT_TYPES, d.value ≠ t) →
        getDocTypeInfo t = ⟨"other", "Другое", .file, "stone"⟩)
    ∧ DOCUMENT_TYPES[5]? = some ⟨"other", "Другое", .file, "stone"⟩ := by
  refine ⟨?_, ?_, ?_, by decide⟩
  · intro ht hp
    simp only [eventTypes, List.mem_cons, List.not_mem_nil, or_false, not_or] at ht
    obtain ⟨h1, h2, h3, h4, h5, h6⟩ := ht
    constructor <;> simp [getEventIcon, getEventColor, h1, h2, h3, h4, h5, h6, hp]
  · intro ht hp
    simp only [eventTypes, List.mem_cons, List.not_mem_nil, or_false, not_or] at ht
    obtain ⟨h1, h2, h3, h4, h5, h6⟩ := ht
    constructor <;> simp [getEventIcon, getEventColor, h1, h2, h3, h4, h5, h6, hp]
  · intro hd
    have hn : DOCUMENT_TYPES.find? (fun d => d.value == t) = none := by
      rw [List.find?_eq_none]
      intro d hdm
      simp [hd d hdm]
    simp [getDocTypeInfo, hn]

/-- Witness for C10 (amended): the unknown, non-prototype type string
"billing" falls back to the `Activity` icon, the stone colour classes
and the `other` document entry. -/
theorem uiLookups_amended_witness :
    (getEventIcon "billing" = .value .activity
      ∧ getEventColor "billing" = .value "bg-stone-100 text-stone-600")
    ∧ getDocTypeInfo "billing" = ⟨"other", "Другое", .file, "stone"⟩ :=
  ⟨(uiLookups_amended "billing").1 (by decide) (by decide),
   (uiLookups_amended "billing").2.2.1 (by decide)⟩

end MediNexus
